import Mathlib

/- Verification of the structural-truss pipeline: a shallow embedding of the
   Network Builder (script 01), Joint Classifier (script 02), Load-Based
   Connector Engineer (script 04) and Beam Intersection / Half-Lap Analyzer
   (script 05) over exact rational arithmetic, together with theorems settling
   the spec claims.  Python floats are modelled as exact rationals; every
   comparison of a square root `sqrt e <= s` (with both sides nonnegative) is
   translated to the equivalent rational comparison `e <= s^2`. -/

namespace StructuralTruss

/- ### 3D points/vectors with exact rational coordinates -/

structure V3 where
  x : ℚ
  y : ℚ
  z : ℚ
deriving DecidableEq

def dot3 (a b : V3) : ℚ := a.x * b.x + a.y * b.y + a.z * b.z

def sub3 (a b : V3) : V3 := ⟨a.x - b.x, a.y - b.y, a.z - b.z⟩

def cross3 (a b : V3) : V3 :=
  ⟨a.y * b.z - a.z * b.y, a.z * b.x - a.x * b.z, a.x * b.y - a.y * b.x⟩

/- squared Euclidean distance; the source compares `sqrt(distSq) < tolerance`,
   which is equivalent to `distSq < tolerance^2`. -/
def distSq (a b : V3) : ℚ := dot3 (sub3 a b) (sub3 a b)

def midpoint3 (a b : V3) : V3 := ⟨(a.x + b.x) / 2, (a.y + b.y) / 2, (a.z + b.z) / 2⟩

/- ### Network Builder (01_SCRIPT_Network_Extraction_V5.py) -/

/- a raw input line; the source stores fields named start and end
   (`end` is a Lean keyword, so the second field is called stop here). -/
structure Line3 where
  start : V3
  stop : V3
deriving DecidableEq

/- the builder state: insertion-ordered vertex_map (key, coordinates), the next
   node key handed out by network.add_node (keys are 0,1,2,... in creation
   order), and the edge list in insertion order. -/
structure BuildState where
  vmap : List (ℕ × V3)
  nextId : ℕ
  edges : List (ℕ × ℕ)
deriving DecidableEq

def tolerance : ℚ := 1 / 10

/- the linear scan in get_or_create_vertex: first stored vertex whose distance
   to p is strictly below the tolerance. -/
def findCloseVertex (vmap : List (ℕ × V3)) (p : V3) : Option (ℕ × V3) :=
  vmap.find? (fun kv => decide (distSq kv.2 p < tolerance ^ 2))

/- get_or_create_vertex: reuse the first close-enough vertex, otherwise create
   a fresh node with the next key and record the literal input coordinate. -/
def getOrCreateVertex (st : BuildState) (p : V3) : ℕ × BuildState :=
  match findCloseVertex st.vmap p with
  | some kv => (kv.1, st)
  | none =>
      (st.nextId,
        { st with vmap := st.vmap ++ [(st.nextId, p)], nextId := st.nextId + 1 })

/- compas Network.add_edge: edges live in a dict keyed edge[u][v], so adding a
   pair (u, v) that is already stored with the same orientation merges into the
   existing edge (attributes updated, nothing new created), while a reversed
   pair (v, u) is a distinct key and is stored separately.  The
   insertion-ordered list models the dict's iteration order. -/
def addEdge (edges : List (ℕ × ℕ)) (u v : ℕ) : List (ℕ × ℕ) :=
  if (u, v) ∈ edges then edges else edges ++ [(u, v)]

/- the per-line body of the edge loop: resolve both endpoints, then call
   network.add_edge exactly when the resolved keys differ (the script itself
   guards against self-loops). -/
def processLine (st : BuildState) (l : Line3) : BuildState :=
  let r1 := getOrCreateVertex st l.start
  let r2 := getOrCreateVertex r1.2 l.stop
  if r1.1 ≠ r2.1 then { r2.2 with edges := addEdge r2.2.edges r1.1 r2.1 } else r2.2

def initState : BuildState := ⟨[], 0, []⟩

def buildNetwork (lines : List Line3) : BuildState := lines.foldl processLine initState

/- concrete inputs used to exercise the builder -/
def lineX : Line3 := ⟨⟨0, 0, 0⟩, ⟨1, 0, 0⟩⟩

def lineTiny : Line3 := ⟨⟨0, 0, 0⟩, ⟨1 / 20, 0, 0⟩⟩

def lineXrev : Line3 := ⟨⟨1, 0, 0⟩, ⟨0, 0, 0⟩⟩

/- a builder state holding one stored vertex (key 0 at the origin) -/
def oneNodeState : BuildState := ⟨[(0, ⟨0, 0, 0⟩)], 1, []⟩

/- ### Joint Classifier (02_SCRIPT_Connector_Analysis_V5.py) -/

/- the degree branch of the connector loop.  For degree 0 no branch fires and
   the record is left without type / rod_count keys: modelled as none. -/
def connectorClass (degree : ℕ) : Option (String × ℕ) :=
  if degree = 1 then some ("END_CONNECTOR", 2)
  else if degree = 2 then some ("LINEAR_SPLICE", 3)
  else if degree = 3 then some ("Y_JOINT", 4)
  else if 4 ≤ degree then some ("COMPLEX_JOINT", 6)
  else none

def rodCountOfDegree (d : ℕ) : ℕ := ((connectorClass d).map Prod.snd).getD 0

/- a node entry of the network artifact: id, position, stored degree -/
structure NodeRec where
  nid : ℕ
  pos : V3
  degree : ℕ
deriving DecidableEq

/- the connector record built for every node (keyed joint_<id> in the source);
   classification holds the type / rod_count keys when a degree branch fired. -/
structure ConnectorRecord where
  node_id : ℕ
  position : V3
  degree : ℕ
  members : List ℕ
  classification : Option (String × ℕ)
deriving DecidableEq

/- node_neighbors accumulation: per edge (a,b), b is appended to a's list and
   a to b's list, in edge order. -/
def membersOf (edges : List (ℕ × ℕ)) (n : ℕ) : List ℕ :=
  edges.foldl
    (fun acc e =>
      acc ++ (if e.1 = n then [e.2] else []) ++ (if e.2 = n then [e.1] else []))
    []

/- the connector-analysis loop: one record per artifact node -/
def connectorAnalysis (nodes : List NodeRec) (edges : List (ℕ × ℕ)) :
    List ConnectorRecord :=
  nodes.map (fun n =>
    { node_id := n.nid
      position := n.pos
      degree := n.degree
      members := membersOf edges n.nid
      classification := connectorClass n.degree })

/- an artifact containing a single isolated (degree-0) node -/
def isolatedNodes : List NodeRec := [⟨0, ⟨0, 0, 0⟩, 0⟩]

/- ### Load-Based Connector Engineer (04_script_connector_engineer.py) -/

def load_duration_factor : ℚ := 1

def moisture_condition_factor : ℚ := 9 / 10

def temperature_factor : ℚ := 1

def size_factor : ℚ := 1

def env_reduction : ℚ :=
  load_duration_factor * moisture_condition_factor * temperature_factor * size_factor

def base_compression_perpendicular : ℚ := 31 / 10

def compression_perpendicular_adjusted : ℚ :=
  base_compression_perpendicular * env_reduction

def bearing_area_mm2 : ℚ := 8 * 60

def capacity_single_shear_N : ℚ := compression_perpendicular_adjusted * bearing_area_mm2

def load_factor : ℚ := 5 / 4

def minimum_rods : ℤ := 2

/- c is the combined load of the triple (v, l, t): the exact value of the
   source expression (v**2 + l**2 + t**2) ** 0.5. -/
def CombinedLoad (v l t c : ℚ) : Prop := 0 ≤ c ∧ c ^ 2 = v ^ 2 + l ^ 2 + t ^ 2

def designLoad (c : ℚ) : ℚ := c * load_factor

def rodsRequiredExact (c : ℚ) : ℚ := designLoad c / capacity_single_shear_N

/- max(int(rods_required_exact + 0.5), SAFETY minimum): for nonnegative input
   Python's int() truncation is the floor. -/
def rodsRequiredFinal (c : ℚ) : ℤ :=
  max (Int.floor (rodsRequiredExact c + 1 / 2)) minimum_rods

def actualCapacity (c : ℚ) : ℚ := (rodsRequiredFinal c : ℚ) * capacity_single_shear_N

def utilizationPercent (c : ℚ) : ℚ := designLoad c / actualCapacity c * 100

/- block sizing (calculate_block_size_for_load) -/

def bearing_stress : ℚ := compression_perpendicular_adjusted

def standard_sizes : List ℚ := [100, 120, 150, 180, 200, 250]

def requiredArea (load_N : ℚ) : ℚ := load_N / bearing_stress

def designArea (load_N : ℚ) : ℚ := requiredArea load_N * (3 / 2)

/- the list comprehension [s for s in standard_sizes if s >= base_size] with
   base_size = sqrt(design_area): since every s is positive, s >= sqrt(a) is
   exactly a <= s^2. -/
def qualifyingSizes (load_N : ℚ) : List ℚ :=
  standard_sizes.filter (fun s => decide (designArea load_N ≤ s ^ 2))

/- min(list, default=250): Python's min ignores the default when the list is
   nonempty. -/
def minOrDefault (xs : List ℚ) (d : ℚ) : ℚ :=
  match xs with
  | [] => d
  | x :: rest => rest.foldl min x

def finalSizeMm (load_N : ℚ) : ℚ := minOrDefault (qualifyingSizes load_N) 250

structure BlockInfo where
  required_area_mm2 : ℚ
  design_area_mm2 : ℚ
  final_size_mm : ℚ
  margin_percent : ℚ
deriving DecidableEq

/- The margin line divides by required_area; when required_area = 0 (i.e. the
   load is 0) the source raises ZeroDivisionError, modelled as none. -/
def calculate_block_size_for_load (load_N : ℚ) : Option BlockInfo :=
  if requiredArea load_N = 0 then none
  else some
    { required_area_mm2 := requiredArea load_N
      design_area_mm2 := designArea load_N
      final_size_mm := finalSizeMm load_N
      margin_percent :=
        (finalSizeMm load_N ^ 2 - requiredArea load_N) / requiredArea load_N * 100 }

structure EngResult where
  combined_N : ℚ
  design_load_N : ℚ
  rods_final : ℤ
  utilization : ℚ
  block : BlockInfo
deriving DecidableEq

/- the full per-node body of the ENGINEERING_RESULTS loop, as a function of the
   combined load c; none exactly when the block-sizing call raises. -/
def engineerNode (c : ℚ) : Option EngResult :=
  (calculate_block_size_for_load c).map (fun b =>
    { combined_N := c
      design_load_N := designLoad c
      rods_final := rodsRequiredFinal c
      utilization := utilizationPercent c
      block := b })

/- the hardcoded NODE_LOADS table: (node id, vertical_N, lateral_N, tension_N) -/
def NODE_LOADS : List (ℕ × ℚ × ℚ × ℚ) :=
  [(0, 0, 2800, 0), (1, 4000, 0, 0), (2, 2000, 1500, 0), (3, 0, 2800, 0),
   (4, 0, 2800, 0), (5, 0, 0, 1200), (6, 1500, 0, 0), (7, 0, 2800, 0),
   (8, 2000, 1500, 0), (9, 4000, 0, 0), (10, 0, 0, 1200), (11, 0, 2800, 0),
   (12, 0, 2800, 0)]

/- the exact Euclidean magnitudes of the NODE_LOADS triples (each triple has a
   single nonzero axis, or is (2000,1500,0) with magnitude 2500, so the float
   sqrt is exact); validated against NODE_LOADS in the C3 theorem. -/
def NODE_COMBINED : List (ℕ × ℚ) :=
  [(0, 2800), (1, 4000), (2, 2500), (3, 2800), (4, 2800), (5, 1200), (6, 1500),
   (7, 2800), (8, 2500), (9, 4000), (10, 1200), (11, 2800), (12, 2800)]

/- the network artifact written by script 01 (§6 of the spec) -/
structure NetworkArtifact where
  nodes : List (ℕ × V3 × ℕ)
  edges : List (ℕ × ℕ)

/- Script 04 as a stage: its environment may or may not contain the network
   artifact (Option), but the script never opens it — every result comes from
   the hardcoded NODE_LOADS table and the constant configuration.  Per node it
   emits (id, combined load, final rod count, utilization %, block size). -/
def loadEngineerRun (_art : Option NetworkArtifact) : List (ℕ × ℚ × ℤ × ℚ × ℚ) :=
  NODE_COMBINED.map (fun ic =>
    (ic.1, ic.2, rodsRequiredFinal ic.2, utilizationPercent ic.2, finalSizeMm ic.2))

/- ### Beam Intersection / Half-Lap Analyzer (05_SCRIPT_HalfLap_Detector_V2.py) -/

def BEAM_WIDTH : ℚ := 46

def BEAM_HEIGHT : ℚ := 97

def min_cut_length : ℚ := BEAM_WIDTH * 3

/- the cut-length computation as a function of sin(angle): fallback 200 below
   the 0.087 threshold, otherwise min_cut_length / sin, then clamped by
   min(.,300) and max(.,92). -/
def cutLengthOfSin (s : ℚ) : ℚ :=
  max (min (if s < 87 / 1000 then 200 else min_cut_length / s) 300) 92

/- cos(angle) = abs(max(-1, min(1, dot))) where dot is the dot product of the
   two unit direction vectors (lines 169-171 of the source). -/
def angleCosClamped (u v : V3) : ℚ := |max (-1) (min 1 (dot3 u v))|

structure Beam where
  startPt : V3
  endPt : V3
deriving DecidableEq

def beamAxis (b : Beam) : V3 := sub3 b.endPt b.startPt

/- create_beam_box's reference axis: the unit direction d/|d| has
   abs(Z) < 0.9 exactly when d.z^2 < 0.81 * |d|^2. -/
def beamRefAxis (d : V3) : V3 :=
  if d.z ^ 2 < (81 / 100) * dot3 d d then ⟨0, 0, 1⟩ else ⟨1, 0, 0⟩

def beamPerp1 (d : V3) : V3 := cross3 d (beamRefAxis d)

def beamPerp2 (d : V3) : V3 := cross3 d (beamPerp1 d)

/- Interior of the oriented box built by create_beam_box: the box is centred at
   the midpoint and spans Interval(-L/2, L/2) along the unit axis d/|d|,
   Interval(-w/2, w/2) along unit perp1 and Interval(-h/2, h/2) along unit
   perp2.  A coordinate bound |dot(q, u/|u|)| < c is written without square
   roots as dot(q,u)^2 < c^2 * |u|^2; for the axis, c = L/2 and |d|^2 = L^2
   give dot(q,d)^2 < (dot(d,d)/2)^2. -/
def inBeamBoxInterior (b : Beam) (w h : ℚ) (p : V3) : Prop :=
  dot3 (sub3 p (midpoint3 b.startPt b.endPt)) (beamAxis b) ^ 2
      < (dot3 (beamAxis b) (beamAxis b) / 2) ^ 2 ∧
  dot3 (sub3 p (midpoint3 b.startPt b.endPt)) (beamPerp1 (beamAxis b)) ^ 2
      < (w / 2) ^ 2 * dot3 (beamPerp1 (beamAxis b)) (beamPerp1 (beamAxis b)) ∧
  dot3 (sub3 p (midpoint3 b.startPt b.endPt)) (beamPerp2 (beamAxis b)) ^ 2
      < (h / 2) ^ 2 * dot3 (beamPerp2 (beamAxis b)) (beamPerp2 (beamAxis b))

def beamInterior (b : Beam) : Set V3 :=
  {p | inBeamBoxInterior b BEAM_WIDTH BEAM_HEIGHT p}

/- Brep.CreateBooleanIntersection of the two closed prisms returns a nonempty
   solid (and the loop then records an intersection) exactly when the prisms
   overlap with nonzero volume; for convex prisms that holds exactly when
   their interiors meet. -/
def recordsIntersection (b1 b2 : Beam) : Prop :=
  (beamInterior b1 ∩ beamInterior b2).Nonempty

/- three beams: A and B share only the node at the origin and are
   perpendicular; C and A share only the origin and are collinear. -/
def beamA : Beam := ⟨⟨0, 0, 0⟩, ⟨1000, 0, 0⟩⟩

def beamB : Beam := ⟨⟨0, 0, 0⟩, ⟨0, 1000, 0⟩⟩

def beamC : Beam := ⟨⟨-1000, 0, 0⟩, ⟨0, 0, 0⟩⟩

/- ### Helper lemmas -/

lemma dot3_comm (a b : V3) : dot3 a b = dot3 b a := by
  unfold dot3; ring

lemma getOrCreateVertex_edges (st : BuildState) (p : V3) :
    ((getOrCreateVertex st p).2).edges = st.edges := by
  unfold getOrCreateVertex
  cases findCloseVertex st.vmap p <;> rfl

lemma addEdge_eq (edges : List (ℕ × ℕ)) (u v : ℕ) :
    addEdge edges u v = edges ++ (if (u, v) ∈ edges then [] else [(u, v)]) := by
  unfold addEdge
  split_ifs <;> simp

lemma capacity_eq : capacity_single_shear_N = 6696 / 5 := by
  norm_num [capacity_single_shear_N, compression_perpendicular_adjusted,
    base_compression_perpendicular, env_reduction, load_duration_factor,
    moisture_condition_factor, temperature_factor, size_factor, bearing_area_mm2]

lemma bearing_stress_eq : bearing_stress = 279 / 100 := by
  norm_num [bearing_stress, compression_perpendicular_adjusted,
    base_compression_perpendicular, env_reduction, load_duration_factor,
    moisture_condition_factor, temperature_factor, size_factor]

lemma rodCount_cases (d : ℕ) :
    rodCountOfDegree d =
      if d = 1 then 2 else if d = 2 then 3 else if d = 3 then 4
      else if 4 ≤ d then 6 else 0 := by
  unfold rodCountOfDegree connectorClass
  split_ifs <;> rfl

/- closed form of the standard-size selection: the ascending list makes the
   minimum of the qualifying sizes the first qualifying one. -/
lemma finalSizeMm_eq (load : ℚ) :
    finalSizeMm load =
      if designArea load ≤ (10000 : ℚ) then 100
      else if designArea load ≤ (14400 : ℚ) then 120
      else if designArea load ≤ (22500 : ℚ) then 150
      else if designArea load ≤ (32400 : ℚ) then 180
      else if designArea load ≤ (40000 : ℚ) then 200
      else 250 := by
  by_cases h1 : designArea load ≤ (10000 : ℚ)
  · have h2 : designArea load ≤ (14400 : ℚ) := le_trans h1 (by norm_num)
    have h3 : designArea load ≤ (22500 : ℚ) := le_trans h1 (by norm_num)
    have h4 : designArea load ≤ (32400 : ℚ) := le_trans h1 (by norm_num)
    have h5 : designArea load ≤ (40000 : ℚ) := le_trans h1 (by norm_num)
    have h6 : designArea load ≤ (62500 : ℚ) := le_trans h1 (by norm_num)
    norm_num [finalSizeMm, qualifyingSizes, standard_sizes, minOrDefault,
      List.filter_cons, List.filter_nil, List.foldl, min_def, h1, h2, h3, h4, h5, h6]
  · by_cases h2 : designArea load ≤ (14400 : ℚ)
    · have h3 : designArea load ≤ (22500 : ℚ) := le_trans h2 (by norm_num)
      have h4 : designArea load ≤ (32400 : ℚ) := le_trans h2 (by norm_num)
      have h5 : designArea load ≤ (40000 : ℚ) := le_trans h2 (by norm_num)
      have h6 : designArea load ≤ (62500 : ℚ) := le_trans h2 (by norm_num)
      norm_num [finalSizeMm, qualifyingSizes, standard_sizes, minOrDefault,
        List.filter_cons, List.filter_nil, List.foldl, min_def, h1, h2, h3, h4, h5, h6]
    · by_cases h3 : designArea load ≤ (22500 : ℚ)
      · have h4 : designArea load ≤ (32400 : ℚ) := le_trans h3 (by norm_num)
        have h5 : designArea load ≤ (40000 : ℚ) := le_trans h3 (by norm_num)
        have h6 : designArea load ≤ (62500 : ℚ) := le_trans h3 (by norm_num)
        norm_num [finalSizeMm, qualifyingSizes, standard_sizes, minOrDefault,
          List.filter_cons, List.filter_nil, List.foldl, min_def, h1, h2, h3, h4, h5, h6]
      · by_cases h4 : designArea load ≤ (32400 : ℚ)
        · have h5 : designArea load ≤ (40000 : ℚ) := le_trans h4 (by norm_num)
          have h6 : designArea load ≤ (62500 : ℚ) := le_trans h4 (by norm_num)
          norm_num [finalSizeMm, qualifyingSizes, standard_sizes, minOrDefault,
            List.filter_cons, List.filter_nil, List.foldl, min_def, h1, h2, h3, h4, h5, h6]
        · by_cases h5 : designArea load ≤ (40000 : ℚ)
          · have h6 : designArea load ≤ (62500 : ℚ) := le_trans h5 (by norm_num)
            norm_num [finalSizeMm, qualifyingSizes, standard_sizes, minOrDefault,
              List.filter_cons, List.filter_nil, List.foldl, min_def, h1, h2, h3, h4, h5, h6]
          · by_cases h6 : designArea load ≤ (62500 : ℚ)
            · norm_num [finalSizeMm, qualifyingSizes, standard_sizes, minOrDefault,
                List.filter_cons, List.filter_nil, List.foldl, min_def, h1, h2, h3, h4, h5, h6]
            · norm_num [finalSizeMm, qualifyingSizes, standard_sizes, minOrDefault,
                List.filter_cons, List.filter_nil, List.foldl, min_def, h1, h2, h3, h4, h5, h6]

/- ### Claim theorems -/

/-- C10: in the Network Builder, a line endpoint strictly closer than the
tolerance (0.1) to some stored node resolves to (the first) such existing
node's id and creates nothing; an endpoint at distance at least the tolerance
from every stored node — the boundary excluded — creates a fresh node whose id
is the monotonically increasing counter, which starts at 0. -/
theorem vertex_merge_resolution (st : BuildState) (p : V3) :
    (∀ k q, findCloseVertex st.vmap p = some (k, q) →
        (getOrCreateVertex st p).1 = k ∧ (k, q) ∈ st.vmap ∧
        distSq q p < tolerance ^ 2 ∧ (getOrCreateVertex st p).2 = st) ∧
    (findCloseVertex st.vmap p = none ↔
        ∀ kq ∈ st.vmap, tolerance ^ 2 ≤ distSq kq.2 p) ∧
    (findCloseVertex st.vmap p = none →
        (getOrCreateVertex st p).1 = st.nextId ∧
        (getOrCreateVertex st p).2.vmap = st.vmap ++ [(st.nextId, p)] ∧
        (getOrCreateVertex st p).2.nextId = st.nextId + 1) ∧
    initState.nextId = 0 := by
  refine ⟨?_, ?_, ?_, rfl⟩
  · intro k q h
    have hmem : (k, q) ∈ st.vmap := List.mem_of_find?_eq_some h
    have hpred := List.find?_some h
    simp only [decide_eq_true_eq] at hpred
    refine ⟨?_, hmem, hpred, ?_⟩ <;> simp [getOrCreateVertex, h]
  · unfold findCloseVertex
    rw [List.find?_eq_none]
    constructor
    · intro h kq hk
      have := h kq hk
      simpa [not_lt] using this
    · intro h kq hk
      simpa [not_lt] using h kq hk
  · intro h
    refine ⟨?_, ?_, ?_⟩ <;> simp [getOrCreateVertex, h]

theorem vertex_merge_resolution_sample :
    (getOrCreateVertex oneNodeState ⟨1 / 20, 0, 0⟩).1 = 0 ∧
    (getOrCreateVertex oneNodeState ⟨1 / 10, 0, 0⟩).1 = 1 ∧
    (getOrCreateVertex oneNodeState ⟨1 / 10, 0, 0⟩).2.nextId = 2 := by
  have h1 :=
    (vertex_merge_resolution oneNodeState ⟨1 / 20, 0, 0⟩).1 0 ⟨0, 0, 0⟩
      (by norm_num [findCloseVertex, oneNodeState, List.find?, distSq, dot3, sub3,
        tolerance])
  have h2 := (vertex_merge_resolution oneNodeState ⟨1 / 10, 0, 0⟩).2.2.1
      (by norm_num [findCloseVertex, oneNodeState, List.find?, distSq, dot3, sub3,
        tolerance])
  exact ⟨h1.1, h2.1, h2.2.2⟩

/-- C5 counterexample: two identical input lines both resolve to the distinct
ordered node pair (0, 1), yet the built network holds a single edge — the
dict-keyed edge storage merges the repeated same-ordered pair — refuting the
claim that two lines producing the same node pair yield two edges. -/
theorem duplicate_line_single_edge :
    (getOrCreateVertex (buildNetwork [lineX]) lineX.start).1 = 0 ∧
    (getOrCreateVertex (getOrCreateVertex (buildNetwork [lineX]) lineX.start).2
        lineX.stop).1 = 1 ∧
    (buildNetwork [lineX, lineX]).edges = [(0, 1)] ∧
    (buildNetwork [lineX, lineX]).edges.length = 1 := by
  have hb1 : buildNetwork [lineX] =
      ⟨[(0, ⟨0, 0, 0⟩), (1, ⟨1, 0, 0⟩)], 2, [(0, 1)]⟩ := by
    norm_num [buildNetwork, initState, processLine, addEdge, getOrCreateVertex,
      findCloseVertex, lineX, List.find?, distSq, dot3, sub3, tolerance,
      List.foldl]
  have hb2 : buildNetwork [lineX, lineX] =
      ⟨[(0, ⟨0, 0, 0⟩), (1, ⟨1, 0, 0⟩)], 2, [(0, 1)]⟩ := by
    norm_num [buildNetwork, initState, processLine, addEdge, getOrCreateVertex,
      findCloseVertex, lineX, List.find?, distSq, dot3, sub3, tolerance,
      List.foldl]
  refine ⟨?_, ?_, by rw [hb2], by rw [hb2]; rfl⟩
  · rw [hb1]
    norm_num [getOrCreateVertex, findCloseVertex, lineX, List.find?, distSq,
      dot3, sub3, tolerance]
  · rw [hb1]
    norm_num [getOrCreateVertex, findCloseVertex, lineX, List.find?, distSq,
      dot3, sub3, tolerance]

/-- C5 (amended): a line whose endpoints resolve to different node ids adds
its ordered resolved pair as an edge only when that exact ordered pair is not
already stored — same-ordered duplicates merge into the existing edge, while a
reversed pair is a distinct dict key and is stored separately — and a line
whose endpoints resolve to the same id adds nothing.  Concretely, two
identical lines yield one edge, a line and its reversal yield two, and a line
shorter than the tolerance yields no edge. -/
theorem edges_merge_same_ordered_pair :
    (∀ (st : BuildState) (l : Line3),
      (processLine st l).edges =
        st.edges ++
          (if (getOrCreateVertex st l.start).1 ≠
                (getOrCreateVertex (getOrCreateVertex st l.start).2 l.stop).1 ∧
              ((getOrCreateVertex st l.start).1,
                  (getOrCreateVertex (getOrCreateVertex st l.start).2 l.stop).1) ∉
                st.edges then
            [((getOrCreateVertex st l.start).1,
              (getOrCreateVertex (getOrCreateVertex st l.start).2 l.stop).1)]
          else [])) ∧
    (buildNetwork [lineX, lineX, lineTiny]).edges = [(0, 1)] ∧
    (buildNetwork [lineX, lineXrev]).edges = [(0, 1), (1, 0)] ∧
    (buildNetwork [lineX, lineX, lineTiny]).nextId = 2 := by
  have hbn3 : buildNetwork [lineX, lineX, lineTiny] =
      ⟨[(0, ⟨0, 0, 0⟩), (1, ⟨1, 0, 0⟩)], 2, [(0, 1)]⟩ := by
    norm_num [buildNetwork, initState, processLine, addEdge, getOrCreateVertex,
      findCloseVertex, lineX, lineTiny, List.find?, distSq, dot3, sub3,
      tolerance, List.foldl]
  have hbnr : buildNetwork [lineX, lineXrev] =
      ⟨[(0, ⟨0, 0, 0⟩), (1, ⟨1, 0, 0⟩)], 2, [(0, 1), (1, 0)]⟩ := by
    norm_num [buildNetwork, initState, processLine, addEdge, getOrCreateVertex,
      findCloseVertex, lineX, lineXrev, List.find?, distSq, dot3, sub3,
      tolerance, List.foldl]
  refine ⟨?_, by rw [hbn3], by rw [hbnr], by rw [hbn3]⟩
  intro st l
  have h2 : ((getOrCreateVertex (getOrCreateVertex st l.start).2 l.stop).2).edges
      = st.edges := by
    rw [getOrCreateVertex_edges, getOrCreateVertex_edges]
  by_cases hne : (getOrCreateVertex st l.start).1 ≠
      (getOrCreateVertex (getOrCreateVertex st l.start).2 l.stop).1
  · by_cases hmem : ((getOrCreateVertex st l.start).1,
        (getOrCreateVertex (getOrCreateVertex st l.start).2 l.stop).1) ∈ st.edges
    · simp [processLine, addEdge_eq, h2, hne, hmem]
    · simp [processLine, addEdge_eq, h2, hne, hmem]
  · simp [processLine, h2, hne]

/-- C9: the Joint Classifier maps degree 1 to END_CONNECTOR with 2 rods,
degree 2 to LINEAR_SPLICE with 3, degree 3 to Y_JOINT with 4 and every degree
at least 4 to COMPLEX_JOINT with 6; the rod count is non-decreasing in the
degree. -/
theorem degree_archetype_mapping (d : ℕ) (hd : 1 ≤ d) :
    (d = 1 → connectorClass d = some ("END_CONNECTOR", 2)) ∧
    (d = 2 → connectorClass d = some ("LINEAR_SPLICE", 3)) ∧
    (d = 3 → connectorClass d = some ("Y_JOINT", 4)) ∧
    (4 ≤ d → connectorClass d = some ("COMPLEX_JOINT", 6)) ∧
    (∀ e, d ≤ e → rodCountOfDegree d ≤ rodCountOfDegree e) := by
  refine ⟨?_, ?_, ?_, ?_, ?_⟩
  · rintro rfl; rfl
  · rintro rfl; rfl
  · rintro rfl; rfl
  · intro h4
    unfold connectorClass
    rw [if_neg (by omega), if_neg (by omega), if_neg (by omega), if_pos h4]
  · intro e he
    rw [rodCount_cases, rodCount_cases]
    split_ifs <;> omega

theorem degree_archetype_mapping_sample :
    1 ≤ 4 ∧
    ((4 = 1 → connectorClass 4 = some ("END_CONNECTOR", 2)) ∧
      (4 = 2 → connectorClass 4 = some ("LINEAR_SPLICE", 3)) ∧
      (4 = 3 → connectorClass 4 = some ("Y_JOINT", 4)) ∧
      (4 ≤ 4 → connectorClass 4 = some ("COMPLEX_JOINT", 6)) ∧
      (∀ e, 4 ≤ e → rodCountOfDegree 4 ≤ rodCountOfDegree e)) :=
  ⟨by norm_num, degree_archetype_mapping 4 (by norm_num)⟩

/-- C4: a degree-0 node reaching the Joint Classifier does not fail: the loop
silently emits a connector record whose classification (the type and rod_count
keys) is absent, because no degree branch fires.  This exhibits the code's
behavior at the failing input of the code_bug claim. -/
theorem degree_zero_silent_record :
    connectorAnalysis isolatedNodes [] =
      [{ node_id := 0, position := ⟨0, 0, 0⟩, degree := 0, members := [],
         classification := none }] := rfl

/-- C1 counterexample: the all-nonnegative load triple
(294624/125, 0, 0) — combined load 2356.992 N — gives exact rod count 2.2,
round-half-up truncates to 2, and the resulting utilization is 110 % > 100 %,
refuting the claim that utilization never exceeds 100 %. -/
theorem rod_rounding_under_capacity :
    CombinedLoad (294624 / 125) 0 0 (294624 / 125) ∧
    rodsRequiredFinal (294624 / 125) = 2 ∧
    100 < utilizationPercent (294624 / 125) := by
  have hex : rodsRequiredExact (294624 / 125) = 11 / 5 := by
    rw [rodsRequiredExact, designLoad, capacity_eq, load_factor]
    norm_num
  have hrods : rodsRequiredFinal (294624 / 125) = 2 := by
    rw [rodsRequiredFinal, hex, minimum_rods]
    norm_num
  refine ⟨⟨by norm_num, by norm_num⟩, hrods, ?_⟩
  rw [utilizationPercent, actualCapacity, hrods, designLoad, capacity_eq, load_factor]
  norm_num

/-- C1 (amended): for every nonnegative load triple the final rod count is at
least the configured minimum 2, and the utilization is at most 100 % exactly
when the exact rod count does not exceed the final rod count — which
round-half-up does not guarantee. -/
theorem rods_min_and_utilization_iff (v l t c : ℚ) (hv : 0 ≤ v) (hl : 0 ≤ l)
    (ht : 0 ≤ t) (hc : CombinedLoad v l t c) :
    minimum_rods ≤ rodsRequiredFinal c ∧
    (utilizationPercent c ≤ 100 ↔ rodsRequiredExact c ≤ (rodsRequiredFinal c : ℚ)) := by
  have hrod : minimum_rods ≤ rodsRequiredFinal c := le_max_right _ _
  refine ⟨hrod, ?_⟩
  have hr2 : (2 : ℤ) ≤ rodsRequiredFinal c := hrod
  have hrpos : (0 : ℚ) < (rodsRequiredFinal c : ℚ) := by
    have h0 : (0 : ℤ) < rodsRequiredFinal c := lt_of_lt_of_le (by norm_num) hr2
    exact_mod_cast h0
  have hK : (0 : ℚ) < capacity_single_shear_N := by rw [capacity_eq]; norm_num
  have h1 : utilizationPercent c ≤ 100 ↔
      designLoad c ≤ (rodsRequiredFinal c : ℚ) * capacity_single_shear_N := by
    unfold utilizationPercent actualCapacity
    rw [div_mul_eq_mul_div, div_le_iff₀ (mul_pos hrpos hK)]
    constructor
    · intro h; nlinarith
    · intro h; nlinarith
  have h2 : rodsRequiredExact c ≤ (rodsRequiredFinal c : ℚ) ↔
      designLoad c ≤ (rodsRequiredFinal c : ℚ) * capacity_single_shear_N := by
    unfold rodsRequiredExact
    rw [div_le_iff₀ hK]
  rw [h1, h2]

theorem rods_min_and_utilization_iff_sample :
    (0 : ℚ) ≤ 3 ∧ (0 : ℚ) ≤ 4 ∧ (0 : ℚ) ≤ 0 ∧ CombinedLoad 3 4 0 5 ∧
    (minimum_rods ≤ rodsRequiredFinal 5 ∧
      (utilizationPercent 5 ≤ 100 ↔ rodsRequiredExact 5 ≤ (rodsRequiredFinal 5 : ℚ))) :=
  ⟨by norm_num, by norm_num, le_refl 0, ⟨by norm_num, by norm_num⟩,
    rods_min_and_utilization_iff 3 4 0 5 (by norm_num) (by norm_num) (le_refl 0)
      ⟨by norm_num, by norm_num⟩⟩

/-- C6 counterexample: at load 200000 N the required bearing area is
20000000/279 mm² (about 71685), every standard size fails the comparison with
the design area, the default 250 is returned, and 250² = 62500 is strictly
below the required area — refuting the claim for all positive loads. -/
theorem block_size_ceiling_undersizes :
    (0 : ℚ) < 200000 ∧ finalSizeMm 200000 ^ 2 < requiredArea 200000 := by
  constructor
  · norm_num
  · have hr : requiredArea 200000 = 20000000 / 279 := by
      rw [requiredArea, bearing_stress_eq]; norm_num
    have hd : designArea 200000 = 10000000 / 93 := by
      rw [designArea, hr]; norm_num
    rw [finalSizeMm_eq, hd, hr]
    norm_num

/-- C6 (amended): for every positive load the block-sizing function returns a
member of the fixed standard list (the smallest whose square reaches the
design area, or 250 when none does), and the returned size squared covers the
pre-margin required area exactly when that area is at most 250² = 62500 mm²
(loads up to 174375 N); beyond that ceiling it silently under-sizes. -/
theorem block_size_standard_and_bearing_iff (load : ℚ) (h : 0 < load) :
    finalSizeMm load ∈ standard_sizes ∧
    (requiredArea load ≤ finalSizeMm load ^ 2 ↔ requiredArea load ≤ (62500 : ℚ)) := by
  have hb : (0 : ℚ) < bearing_stress := by rw [bearing_stress_eq]; norm_num
  have hreq : 0 < requiredArea load := div_pos h hb
  have hdes : designArea load = requiredArea load * (3 / 2) := rfl
  rw [finalSizeMm_eq]
  split_ifs with h1 h2 h3 h4 h5
  · exact ⟨by norm_num [standard_sizes],
      iff_of_true (by rw [hdes] at h1; nlinarith) (by rw [hdes] at h1; nlinarith)⟩
  · exact ⟨by norm_num [standard_sizes],
      iff_of_true (by rw [hdes] at h2; nlinarith) (by rw [hdes] at h2; nlinarith)⟩
  · exact ⟨by norm_num [standard_sizes],
      iff_of_true (by rw [hdes] at h3; nlinarith) (by rw [hdes] at h3; nlinarith)⟩
  · exact ⟨by norm_num [standard_sizes],
      iff_of_true (by rw [hdes] at h4; nlinarith) (by rw [hdes] at h4; nlinarith)⟩
  · exact ⟨by norm_num [standard_sizes],
      iff_of_true (by rw [hdes] at h5; nlinarith) (by rw [hdes] at h5; nlinarith)⟩
  · exact ⟨by norm_num [standard_sizes], Iff.rfl⟩

theorem block_size_standard_and_bearing_iff_sample :
    (0 : ℚ) < 1000 ∧
    (finalSizeMm 1000 ∈ standard_sizes ∧
      (requiredArea 1000 ≤ finalSizeMm 1000 ^ 2 ↔
        requiredArea 1000 ≤ (62500 : ℚ))) :=
  ⟨by norm_num, block_size_standard_and_bearing_iff 1000 (by norm_num)⟩

/-- C7: at the all-zero nonnegative load triple (0,0,0) the combined load is 0,
the required bearing area is 0, and the margin computation in
calculate_block_size_for_load divides by it — the per-node computation does
not complete (ZeroDivisionError, modelled as none).  This exhibits the code's
behavior at the failing input of the code_bug claim. -/
theorem zero_load_blocks_computation :
    CombinedLoad 0 0 0 0 ∧ engineerNode 0 = none := by
  refine ⟨⟨le_refl 0, by norm_num⟩, ?_⟩
  have hz : requiredArea 0 = 0 := by rw [requiredArea]; exact zero_div _
  simp [engineerNode, calculate_block_size_for_load, hz]

/-- C3: the Load Engineer stage reads no upstream artifact — its output is the
same for any two environments (any contents of the network artifact, or its
absence), and the combined magnitudes it uses are exactly the Euclidean norms
of the hardcoded NODE_LOADS triples for node ids 0-12. -/
theorem load_engineer_independent_of_network :
    (∀ a b : Option NetworkArtifact, loadEngineerRun a = loadEngineerRun b) ∧
    ((NODE_LOADS.zip NODE_COMBINED).Forall (fun p =>
        p.1.1 = p.2.1 ∧ 0 ≤ p.2.2 ∧
          p.2.2 ^ 2 = p.1.2.1 ^ 2 + p.1.2.2.1 ^ 2 + p.1.2.2.2 ^ 2)) ∧
    NODE_LOADS.length = 13 ∧ NODE_COMBINED.length = 13 := by
  refine ⟨fun a b => rfl, ?_, rfl, rfl⟩
  norm_num [NODE_LOADS, NODE_COMBINED, List.zip, List.zipWith, List.Forall]

/-- C2 counterexample: beams A and B share only the single endpoint node at
the origin (meeting, not crossing), yet their solid prisms overlap with
nonzero volume in the corner region near the shared node — the point
(10, 10, 0) lies in both interiors — so the detector records an intersection
for the pair, refuting the claim. -/
theorem endpoint_sharing_beams_do_intersect :
    beamA.startPt = beamB.startPt ∧ beamA.endPt ≠ beamB.endPt ∧
    beamA.endPt ≠ beamB.startPt ∧ beamA.startPt ≠ beamB.endPt ∧
    recordsIntersection beamA beamB := by
  refine ⟨rfl, by norm_num [beamA, beamB, V3.mk.injEq],
    by norm_num [beamA, beamB, V3.mk.injEq],
    by norm_num [beamA, beamB, V3.mk.injEq], ⟨⟨10, 10, 0⟩, ?_, ?_⟩⟩
  · show inBeamBoxInterior beamA BEAM_WIDTH BEAM_HEIGHT ⟨10, 10, 0⟩
    norm_num [inBeamBoxInterior, beamAxis, beamPerp1, beamPerp2, beamRefAxis,
      cross3, dot3, sub3, midpoint3, beamA, BEAM_WIDTH, BEAM_HEIGHT]
  · show inBeamBoxInterior beamB BEAM_WIDTH BEAM_HEIGHT ⟨10, 10, 0⟩
    norm_num [inBeamBoxInterior, beamAxis, beamPerp1, beamPerp2, beamRefAxis,
      cross3, dot3, sub3, midpoint3, beamB, BEAM_WIDTH, BEAM_HEIGHT]

/-- C2 (amended): an intersection record arises exactly from nonzero-volume
solid overlap, and an endpoint-sharing pair produces zero records only when
that overlap has zero volume: for the collinear beams C and A meeting
end-to-end at the origin the prism interiors are disjoint, so no intersection
is recorded. -/
theorem collinear_endpoint_beams_no_overlap :
    beamC.endPt = beamA.startPt ∧
    beamInterior beamC ∩ beamInterior beamA = ∅ := by
  refine ⟨rfl, ?_⟩
  rw [Set.eq_empty_iff_forall_not_mem]
  rintro p ⟨h1, h2⟩
  simp only [beamInterior, Set.mem_setOf_eq] at h1 h2
  have k1 := h1.1
  have k2 := h2.1
  norm_num [inBeamBoxInterior, beamAxis, beamPerp1, beamPerp2, beamRefAxis,
    cross3, dot3, sub3, midpoint3, beamC, beamA] at k1 k2
  nlinarith [k1, k2]

/-- C8: every cut length the Half-Lap Analyzer emits lies in
[2 x beam width, 300] = [92, 300], and the computation is symmetric in the
beam pair: the clamped cosine (hence the angle) and the resulting cut length
are identical after swapping the two direction vectors. -/
theorem cut_length_bounds_and_symmetry (u v : V3) (s1 s2 : ℚ)
    (h1 : 0 ≤ s1) (h2 : 0 ≤ s2)
    (hs1 : s1 ^ 2 = 1 - angleCosClamped u v ^ 2)
    (hs2 : s2 ^ 2 = 1 - angleCosClamped v u ^ 2) :
    (92 ≤ cutLengthOfSin s1 ∧ cutLengthOfSin s1 ≤ 300) ∧
    angleCosClamped u v = angleCosClamped v u ∧
    cutLengthOfSin s1 = cutLengthOfSin s2 := by
  have hsym : angleCosClamped u v = angleCosClamped v u := by
    unfold angleCosClamped
    rw [dot3_comm]
  have hsq : s1 ^ 2 = s2 ^ 2 := by rw [hs1, hs2, hsym]
  have hss : s1 = s2 := by nlinarith [hsq, h1, h2]
  refine ⟨⟨le_max_right _ _, ?_⟩, hsym, by rw [hss]⟩
  unfold cutLengthOfSin
  apply max_le
  · exact min_le_right _ _
  · norm_num

theorem cut_length_bounds_and_symmetry_sample :
    (0 : ℚ) ≤ 1 ∧
    (1 : ℚ) ^ 2 = 1 - angleCosClamped ⟨1, 0, 0⟩ ⟨0, 1, 0⟩ ^ 2 ∧
    ((92 ≤ cutLengthOfSin 1 ∧ cutLengthOfSin 1 ≤ 300) ∧
      angleCosClamped ⟨1, 0, 0⟩ ⟨0, 1, 0⟩ = angleCosClamped ⟨0, 1, 0⟩ ⟨1, 0, 0⟩ ∧
      cutLengthOfSin 1 = cutLengthOfSin 1) := by
  have hcos : angleCosClamped ⟨1, 0, 0⟩ ⟨0, 1, 0⟩ = 0 := by
    norm_num [angleCosClamped, dot3]
  have hcos2 : angleCosClamped ⟨0, 1, 0⟩ ⟨1, 0, 0⟩ = 0 := by
    norm_num [angleCosClamped, dot3]
  refine ⟨by norm_num, by rw [hcos]; norm_num, ?_⟩
  exact cut_length_bounds_and_symmetry ⟨1, 0, 0⟩ ⟨0, 1, 0⟩ 1 1 (by norm_num)
    (by norm_num) (by rw [hcos]; norm_num) (by rw [hcos2]; norm_num)

end StructuralTruss
